import Mathlib

/-
  Verification development for the quest-playwright-service repository.

  The embedding models the decision logic of the three services
  (`CitationValidator`, `DeploymentVerifier`, `ScreenshotService`) as pure
  Lean functions over an explicit environment describing the outcomes of
  the browser-side effects of one request:

  * `page.goto` and `browser.newPage` are fallible (network faults), so the
    environment carries them as `Except String _` values;
  * DOM probes (`locator(...).count()`, `textContent`, `page.content()`,
    `page.frames()`, `page.evaluate`) are modelled as total observations of
    an abstract page state — the page the request sees;
  * the Evidence Sink upload (`uploadToCloudinary`, which rethrows every
    failure) is an `Except String String` in the environment;
  * JavaScript truthiness of optional strings / numbers (`if (x)` treats
    `undefined` and `""` / `0` as false) is modelled explicitly;
  * each entry point additionally returns a trace recording which probes
    ran and whether the page handle was opened/closed (the `finally`
    blocks of the source), mirroring the call-count assertions of the
    spec's testable properties;
  * wall-clock fields (timestamps, response_time_ms) are not modelled.
-/

set_option autoImplicit false

/-! ## String helpers (JavaScript `String.prototype.includes`, truthiness) -/

/-- Does the second list occur at the head of the first?  (helper for substring search) -/
def charsStart : List Char → List Char → Bool
  | [], _ => true
  | _ :: _, [] => false
  | a :: as, b :: bs => a == b && charsStart as bs

/-- Does `needle` occur anywhere inside the list? -/
def charsHave (needle : List Char) : List Char → Bool
  | [] => charsStart needle []
  | b :: bs => charsStart needle (b :: bs) || charsHave needle bs

/-- JavaScript `hay.includes(needle)` (case-sensitive substring test). -/
def strContains (hay needle : String) : Bool :=
  charsHave needle.toList hay.toList

/-- JavaScript truthiness of an optional string: `undefined` and `""` are falsy. -/
def optTruthy : Option String → Bool
  | none => false
  | some s => !(s == "")

/-- JavaScript truthiness of an optional boolean: only `true` is truthy
(`undefined`, `null` and `false` are falsy). -/
def optBoolFalsy : Option Bool → Bool
  | some true => false
  | _ => true

/-- JavaScript `x || d` on an optional string (`null`/`undefined`/`""` fall back). -/
def jsStrOr (o : Option String) (d : String) : String :=
  match o with
  | some s => if s == "" then d else s
  | none => d

/-- JavaScript `x || d` on an optional number (`undefined` and `0` fall back). -/
def jsNatOr (o : Option Nat) (d : Nat) : Nat :=
  match o with
  | some n => if n == 0 then d else n
  | none => d

/-! ## Citation validator — data model (citation-validator.ts) -/

/-- The six terminal statuses of `CitationValidationResult.status`. -/
inductive CitationStatus where
  | valid
  | paywall
  | not_found
  | text_not_found
  | error
  | captcha
deriving Repr, DecidableEq

/-- `CitationValidationRequest`.  The optional booleans of the source are
modelled by their truthiness value (in the service `undefined` behaves as
`false` at both use sites). -/
structure CitationValidationRequest where
  url : String
  expectedText : Option String
  takeScreenshot : Bool
  checkPaywall : Bool
deriving Repr, DecidableEq

/-- `CitationValidationResult` (wall-clock fields omitted). -/
structure CitationValidationResult where
  url : String
  status : CitationStatus
  http_status : Nat
  text_found : Option Bool
  text_location : Option String
  paywall_detected : Bool
  paywall_text : Option String
  captcha_detected : Bool
  screenshot_url : Option String
  page_title : Option String
  error_message : Option String
deriving Repr, DecidableEq

/-- The page state one citation request observes, at the granularity of the
DOM queries the validator issues:
`textCount ind` is `page.locator("text=/ind/i").count()`,
`textContentOf ind` is `.first().textContent()` of that locator,
`exactCount s` is `page.locator("text=\x22s\x22").count()`,
`frames` the URLs of `page.frames()`, and `content` is `page.content()`. -/
structure CitationPage where
  textCount : String → Nat
  textContentOf : String → Option String
  exactCount : String → Nat
  frames : List String
  content : String

/-- The effectful outcomes of one `validate` call:
`newPage` for `browser.newPage`, `navigation` for `page.goto`
(on success, the pair of `response?.status() || 0` and `page.title()`), and
`upload` for screenshot capture plus `uploadToCloudinary` (which rethrows
every failure). -/
structure CitationEnv where
  newPage : Except String Unit
  navigation : Except String (Nat × String)
  page : CitationPage
  upload : Except String String

/-- Which probes ran and whether the page was opened and closed. -/
structure CitationTrace where
  page_opened : Bool
  captcha_probed : Bool
  paywall_probed : Bool
  text_probed : Bool
  screenshot_attempted : Bool
  page_closed : Bool
deriving Repr, DecidableEq

/-! ## Citation validator — probes -/

/-- The hardcoded paywall indicator phrases of `detectPaywall`. -/
def paywallIndicators : List String :=
  ["subscribe", "subscription", "paywall", "premium content",
   "member exclusive", "sign in to continue", "register to read",
   "become a member", "unlock this article"]

/-- The hardcoded CAPTCHA indicator phrases of `detectCaptcha`. -/
def captchaIndicators : List String :=
  ["recaptcha", "captcha", "hcaptcha", "robot verification",
   "verify you are human"]

/-- The indicator loop of `detectPaywall`: first indicator with a positive
locator count wins; the reported text is the element's `textContent` or, when
that is null/empty, the indicator phrase itself (`text || indicator`). -/
def detectPaywallGo (page : CitationPage) : List String → Bool × Option String
  | [] => (false, none)
  | ind :: rest =>
    if 0 < page.textCount ind then
      (true, some (jsStrOr (page.textContentOf ind) ind))
    else detectPaywallGo page rest

/-- `CitationValidator.detectPaywall`. -/
def detectPaywall (page : CitationPage) : Bool × Option String :=
  detectPaywallGo page paywallIndicators

/-- `CitationValidator.detectCaptcha`: any indicator phrase with a positive
count, or any frame URL containing "recaptcha" or "captcha". -/
def detectCaptcha (page : CitationPage) : Bool :=
  captchaIndicators.any (fun ind => decide (0 < page.textCount ind))
  || page.frames.any (fun url => strContains url "recaptcha" || strContains url "captcha")

/-- `CitationValidator.findExpectedText`: three tiers — exact locator match,
case-insensitive locator match, case-insensitive search of the raw HTML. -/
def findExpectedText (page : CitationPage) (expectedText : String) :
    Bool × Option String :=
  if 0 < page.exactCount expectedText then
    (true, some "exact match")
  else if 0 < page.textCount expectedText then
    (true, some "partial match (case-insensitive)")
  else if strContains page.content.toLower expectedText.toLower then
    (true, some "found in HTML content")
  else (false, none)

/-! ## Citation validator — validate -/

/-- The result built by the catch-all handler of `validate`: every finding
established before the fault is discarded. -/
def errorResult (url msg : String) : CitationValidationResult :=
  { url := url
    status := .error
    http_status := 0
    text_found := none
    text_location := none
    paywall_detected := false
    paywall_text := none
    captcha_detected := false
    screenshot_url := none
    page_title := none
    error_message := some msg }

/-- `CitationValidator.validate`, paired with its probe/lifecycle trace.
Faults from `newPage`, `goto` and the screenshot upload are folded into
`errorResult` by the catch-all handler; the `finally` block closes the page
whenever it was opened. -/
def validate (env : CitationEnv) (request : CitationValidationRequest) :
    CitationValidationResult × CitationTrace :=
  match env.newPage with
  | .error msg =>
      (errorResult request.url msg,
       { page_opened := false, captcha_probed := false, paywall_probed := false,
         text_probed := false, screenshot_attempted := false, page_closed := false })
  | .ok _ =>
    match env.navigation with
    | .error msg =>
        (errorResult request.url msg,
         { page_opened := true, captcha_probed := false, paywall_probed := false,
           text_probed := false, screenshot_attempted := false, page_closed := true })
    | .ok (httpStatus, pageTitle) =>
      if 400 ≤ httpStatus then
        ({ url := request.url
           status := .not_found
           http_status := httpStatus
           text_found := none
           text_location := none
           paywall_detected := false
           paywall_text := none
           captcha_detected := false
           screenshot_url := none
           page_title := some pageTitle
           error_message := none },
         { page_opened := true, captcha_probed := false, paywall_probed := false,
           text_probed := false, screenshot_attempted := false, page_closed := true })
      else if detectCaptcha env.page then
        ({ url := request.url
           status := .captcha
           http_status := httpStatus
           text_found := none
           text_location := none
           paywall_detected := false
           paywall_text := none
           captcha_detected := true
           screenshot_url := none
           page_title := some pageTitle
           error_message := none },
         { page_opened := true, captcha_probed := true, paywall_probed := false,
           text_probed := false, screenshot_attempted := false, page_closed := true })
      else
        let pw := if request.checkPaywall then detectPaywall env.page else (false, none)
        let doText := optTruthy request.expectedText
        let tf : Option Bool × Option String :=
          if doText then
            let r := findExpectedText env.page (request.expectedText.getD "")
            (some r.1, r.2)
          else (none, none)
        let trace : CitationTrace :=
          { page_opened := true, captcha_probed := true,
            paywall_probed := request.checkPaywall, text_probed := doText,
            screenshot_attempted := request.takeScreenshot, page_closed := true }
        match (if request.takeScreenshot then env.upload.map some else .ok none) with
        | .error msg => (errorResult request.url msg, trace)
        | .ok screenshotUrl =>
          let status : CitationStatus :=
            if pw.1 then .paywall
            else if doText && optBoolFalsy tf.1 then .text_not_found
            else .valid
          ({ url := request.url
             status := status
             http_status := httpStatus
             text_found := tf.1
             text_location := tf.2
             paywall_detected := pw.1
             paywall_text := pw.2
             captcha_detected := false
             screenshot_url := screenshotUrl
             page_title := some pageTitle
             error_message := none },
           trace)

/-- `CitationValidator.batchValidate` maps `validate` over the citations;
the environment of the i-th member validation is `envs i`. -/
def batchValidateGo (envs : Nat → CitationEnv) (i : Nat) :
    List CitationValidationRequest → List CitationValidationResult
  | [] => []
  | c :: cs => (validate (envs i) c).1 :: batchValidateGo envs (i + 1) cs

/-- `CitationValidator.batchValidate` (`Promise.all` over `citations.map(validate)`:
results resolve in input order). -/
def batchValidate (envs : Nat → CitationEnv)
    (citations : List CitationValidationRequest) : List CitationValidationResult :=
  batchValidateGo envs 0 citations

/-! ## Deployment verifier — data model (deployment-verifier.ts) -/

/-- The aggregate status of `DeploymentVerificationResult`. -/
inductive VerifyStatus where
  | passed
  | failed
deriving Repr, DecidableEq

/-- The check type strings `runCheck` recognises (the six cases of its switch). -/
def knownCheckTypes : List String :=
  ["screenshot", "css_loaded", "images_loaded", "fonts_loaded",
   "layout_stable", "performance"]

/-- `DeploymentCheck`.  `type` is kept as a raw string because `runCheck`
has a default branch for unrecognised values. -/
structure DeploymentCheck where
  type : String
  selector : Option String
  viewport : Option (Nat × Nat)
  min_count : Option Nat
  font_family : Option String
  wait_time : Option Nat
deriving Repr, DecidableEq

/-- `DeploymentVerificationRequest` (`compareTo` is accepted but unused by the
source's `verify`, and is omitted). -/
structure DeploymentVerificationRequest where
  url : String
  checks : List DeploymentCheck
deriving Repr, DecidableEq

/-- The computed-style snapshot captured by the `css_loaded` check. -/
structure ComputedStyles where
  display : String
  visibility : String
  opacity : String
  color : String
  fontSize : String
  fontFamily : String
  backgroundColor : String
deriving Repr, DecidableEq

/-- `CheckResult` (fields absent for a given variant are `none`). -/
structure CheckResult where
  type : String
  passed : Bool
  message : Option String
  screenshot_url : Option String
  computed_styles : Option ComputedStyles
  images_found : Option Nat
  failed_images : Option (List String)
  cumulative_layout_shift : Option ℚ
  load_time : Option Nat
deriving Repr, DecidableEq

/-- One `<img>` element as observed by the `images_loaded` check. -/
structure ImgState where
  src : Option String
  complete : Bool
  naturalWidth : Nat
deriving Repr, DecidableEq

/-- Performance metrics; `load_time` is 0 as built by `getPerformanceMetrics`
and overwritten by `verify` with its own elapsed time. -/
structure PerfMetrics where
  load_time : Nat
  dom_content_loaded : Nat
  first_contentful_paint : Nat
deriving Repr, DecidableEq

/-- The page state one deployment-verification request observes, at the
granularity of the probes the checks issue.  `screenshotUpload` is the
outcome of screenshot capture plus Evidence Sink upload inside the
`screenshot` check (the one fallible probe of the check set);
`selectorCount sel` is `locator(sel).first().count()`;
`selectorStyles sel` the computed-style evaluation; `images` the states of
all `<img>` elements; `fontCheck fam` is `document.fonts.check("16px fam")`;
`cls` the observed cumulative layout shift (an exact rational here — the
source's floating-point arithmetic is modelled as exact). -/
structure DeployPage where
  screenshotUpload : Except String String
  selectorCount : String → Nat
  selectorStyles : String → ComputedStyles
  images : List ImgState
  fontCheck : String → Bool
  cls : ℚ
  dom_content_loaded : Nat
  first_contentful_paint : Nat

/-- The effectful outcomes of one `verify` / `visualRegression` call. -/
structure VerifyEnv where
  newPage : Except String Unit
  navigation : Except String Unit
  page : DeployPage
  loadTime : Nat

/-- Page lifecycle trace shared by verifier and screenshot entry points. -/
structure SessionTrace where
  page_opened : Bool
  page_closed : Bool
deriving Repr, DecidableEq

/-! ## Deployment verifier — the six checks and runCheck -/

/-- `DeploymentVerifier.getPerformanceMetrics` (numeric rounding of the
browser's millisecond values is not modelled: the observations are already
naturals). -/
def getPerformanceMetrics (page : DeployPage) : PerfMetrics :=
  { load_time := 0
    dom_content_loaded := page.dom_content_loaded
    first_contentful_paint := page.first_contentful_paint }

/-- A `CheckResult` with every optional field empty. -/
def emptyCheckResult (t : String) (p : Bool) : CheckResult :=
  { type := t, passed := p, message := none, screenshot_url := none,
    computed_styles := none, images_found := none, failed_images := none,
    cumulative_layout_shift := none, load_time := none }

/-- `checkScreenshot`: viewport switch, screenshot, Evidence Sink upload
(the upload may throw — surfaced as `Except.error`).  The source's message
interpolates the optional viewport dimensions; the interpolated text is
summarised here. -/
def checkScreenshot (page : DeployPage) : Except String CheckResult :=
  match page.screenshotUpload with
  | .error msg => .error msg
  | .ok url =>
    .ok { emptyCheckResult "screenshot" true with
          screenshot_url := some url
          message := some "Screenshot captured" }

/-- `checkCssLoaded`: requires a (truthy) selector; fails when no element
matches; otherwise captures computed styles and passes. -/
def checkCssLoaded (page : DeployPage) (check : DeploymentCheck) : CheckResult :=
  if !optTruthy check.selector then
    { emptyCheckResult "css_loaded" false with
      message := some "Selector is required for CSS check" }
  else
    let sel := check.selector.getD ""
    if page.selectorCount sel == 0 then
      { emptyCheckResult "css_loaded" false with
        message := some ("Element not found: " ++ sel) }
    else
      { emptyCheckResult "css_loaded" true with
        computed_styles := some (page.selectorStyles sel)
        message := some ("CSS loaded for " ++ sel) }

/-- `checkImagesLoaded`: an image counts as loaded when `complete` holds and
its natural width is positive; passes iff at least `min_count || 1` images
loaded; failed entries record their `src` or "unknown". -/
def checkImagesLoaded (page : DeployPage) (check : DeploymentCheck) : CheckResult :=
  let imageResults := page.images.map (fun img =>
    (img.src, img.complete && decide (0 < img.naturalWidth)))
  let loadedImages := imageResults.filter (fun r => r.2)
  let failedImages := (imageResults.filter (fun r => !r.2)).map (fun r => jsStrOr r.1 "unknown")
  let minCount := jsNatOr check.min_count 1
  let loadedCount := loadedImages.length
  let passed := decide (minCount ≤ loadedCount)
  { emptyCheckResult "images_loaded" passed with
    images_found := some loadedCount
    failed_images := some failedImages
    message := some (if passed then
        toString loadedCount ++ " images loaded successfully"
      else
        "Only " ++ toString loadedCount ++ " images loaded (expected at least "
          ++ toString minCount ++ ")") }

/-- `checkFontsLoaded`: requires a (truthy) font family; passes iff the
engine reports the family available at 16px. -/
def checkFontsLoaded (page : DeployPage) (check : DeploymentCheck) : CheckResult :=
  if !optTruthy check.font_family then
    { emptyCheckResult "fonts_loaded" false with
      message := some "font_family is required for font check" }
  else
    let fam := check.font_family.getD ""
    let fontLoaded := page.fontCheck fam
    { emptyCheckResult "fonts_loaded" fontLoaded with
      message := some (if fontLoaded then
          "Font loaded successfully: " ++ fam
        else
          "Font failed to load: " ++ fam) }

/-- `checkLayoutStable`: passes iff the observed cumulative layout shift is
below 0.1 (the wait before observing has no observable effect here; the
source's message interpolates the CLS value, summarised here). -/
def checkLayoutStable (page : DeployPage) : CheckResult :=
  let cls := page.cls
  let passed := decide (cls < 1 / 10)
  { emptyCheckResult "layout_stable" passed with
    cumulative_layout_shift := some cls
    message := some (if passed then "Layout stable" else "Layout unstable") }

/-- `checkPerformance`: always passes, reporting the metrics' `load_time`
(0 at this call site). -/
def checkPerformance (page : DeployPage) : CheckResult :=
  let metrics := getPerformanceMetrics page
  { emptyCheckResult "performance" true with
    load_time := some metrics.load_time
    message := some ("Page loaded in " ++ toString metrics.load_time ++ "ms") }

/-- The `switch` body of `runCheck`: dispatch on the type string, with the
default branch producing a failed result for unknown types.  A thrown
fault inside a check surfaces as `Except.error`. -/
def runCheckBody (page : DeployPage) (check : DeploymentCheck) :
    Except String CheckResult :=
  if check.type = "screenshot" then checkScreenshot page
  else if check.type = "css_loaded" then .ok (checkCssLoaded page check)
  else if check.type = "images_loaded" then .ok (checkImagesLoaded page check)
  else if check.type = "fonts_loaded" then .ok (checkFontsLoaded page check)
  else if check.type = "layout_stable" then .ok (checkLayoutStable page)
  else if check.type = "performance" then .ok (checkPerformance page)
  else .ok { emptyCheckResult check.type false with
             message := some ("Unknown check type: " ++ check.type) }

/-- `DeploymentVerifier.runCheck`: the try/catch wrapper — an exception
inside a check becomes that check's failed result with the error message. -/
def runCheck (page : DeployPage) (check : DeploymentCheck) : CheckResult :=
  match runCheckBody page check with
  | .ok r => r
  | .error msg => { emptyCheckResult check.type false with message := some msg }

/-- `DeploymentVerificationResult` (timestamp omitted; `visual_diff` is
declared by the source interface but never set by `verify`). -/
structure DeploymentVerificationResult where
  url : String
  status : VerifyStatus
  checks : List CheckResult
  visual_diff : Option String
  performance : PerfMetrics
deriving Repr, DecidableEq

/-- `DeploymentVerifier.verify`: navigate, run every requested check in
order, aggregate `passed` iff all checks passed; faults (navigation) are
rethrown to the caller; the `finally` block closes the page whenever it was
opened. -/
def verify (env : VerifyEnv) (request : DeploymentVerificationRequest) :
    Except String DeploymentVerificationResult × SessionTrace :=
  match env.newPage with
  | .error msg => (.error msg, { page_opened := false, page_closed := false })
  | .ok _ =>
    match env.navigation with
    | .error msg => (.error msg, { page_opened := true, page_closed := true })
    | .ok _ =>
      let checkResults := request.checks.map (runCheck env.page)
      let status : VerifyStatus :=
        if checkResults.all (fun r => r.passed) then .passed else .failed
      let perf := { getPerformanceMetrics env.page with load_time := env.loadTime }
      (.ok { url := request.url
             status := status
             checks := checkResults
             visual_diff := none
             performance := perf },
       { page_opened := true, page_closed := true })

/-! ## Image comparison (image-comparison.ts) and visual regression -/

/-- One changed region reported by the comparator. -/
structure ImgDifference where
  area : String
  severity : String
  pixels_changed : Nat
deriving Repr, DecidableEq

/-- `ImageComparisonResult`. -/
structure ImageComparisonResult where
  passed : Bool
  difference : ℚ
  diffImageUrl : Option String
  differences : Option (List ImgDifference)
deriving Repr, DecidableEq

/-- `compareImages` (the source is an explicit placeholder): the difference
is the fixed ratio 0.05; passes iff that ratio is at most the threshold.
The baseline URL and current image bytes are accepted but unused, as in the
source. -/
def compareImages (baselineUrl : String) (currentImage : Nat) (threshold : ℚ) :
    ImageComparisonResult :=
  let difference : ℚ := 5 / 100
  { passed := decide (difference ≤ threshold)
    difference := difference
    diffImageUrl := none
    differences := some [{ area := "header", severity := "minor", pixels_changed := 1200 }] }

/-- `VisualRegressionRequest` (viewport as width × height). -/
structure VisualRegressionRequest where
  url : String
  baselineScreenshot : Option String
  threshold : ℚ
  viewport : Nat × Nat
deriving Repr, DecidableEq

/-- `VisualRegressionResult`. -/
structure VisualRegressionResult where
  passed : Bool
  pixel_difference : ℚ
  threshold : ℚ
  diff_image_url : Option String
  current_screenshot_url : Option String
  differences_found : Option (List ImgDifference)
deriving Repr, DecidableEq

/-- The effectful outcomes of one `visualRegression` call: `newPage`,
`goto`, the captured screenshot buffer (modelled by its byte count) and its
Evidence Sink upload. -/
structure VisualEnv where
  newPage : Except String Unit
  navigation : Except String Unit
  screenshotBytes : Nat
  upload : Except String String

/-- `DeploymentVerifier.visualRegression`: navigate, capture and upload the
current screenshot (upload faults propagate — there is no catch, only the
closing `finally`); with no (truthy) baseline the result passes trivially
with zero difference; with a baseline the comparator decides. -/
def visualRegression (env : VisualEnv) (request : VisualRegressionRequest) :
    Except String VisualRegressionResult × SessionTrace :=
  match env.newPage with
  | .error msg => (.error msg, { page_opened := false, page_closed := false })
  | .ok _ =>
    match env.navigation with
    | .error msg => (.error msg, { page_opened := true, page_closed := true })
    | .ok _ =>
      match env.upload with
      | .error msg => (.error msg, { page_opened := true, page_closed := true })
      | .ok currentScreenshotUrl =>
        if !optTruthy request.baselineScreenshot then
          (.ok { passed := true
                 pixel_difference := 0
                 threshold := request.threshold
                 diff_image_url := none
                 current_screenshot_url := some currentScreenshotUrl
                 differences_found := none },
           { page_opened := true, page_closed := true })
        else
          let comparison := compareImages (request.baselineScreenshot.getD "")
            env.screenshotBytes request.threshold
          (.ok { passed := comparison.passed
                 pixel_difference := comparison.difference
                 threshold := request.threshold
                 diff_image_url := comparison.diffImageUrl
                 current_screenshot_url := some currentScreenshotUrl
                 differences_found := comparison.differences },
           { page_opened := true, page_closed := true })

/-! ## Screenshot service (screenshot-service.ts) -/

/-- `ScreenshotRequest`. -/
structure ScreenshotRequest where
  url : String
  viewport : Nat × Nat
  selector : Option String
  fullPage : Option Bool
deriving Repr, DecidableEq

/-- `ScreenshotResult` (timestamp omitted; buffers modelled by byte count). -/
structure ScreenshotResult where
  screenshot_url : String
  width : Nat
  height : Nat
  file_size : Nat
deriving Repr, DecidableEq

/-- The effectful outcomes of one `capture` call: `newPage`, `goto`, the
element/page screenshot primitives (yielding buffer byte counts) and the
Evidence Sink upload of a buffer. -/
structure ScreenshotEnv where
  newPage : Except String Unit
  navigation : Except String Unit
  elementShot : String → Except String Nat
  pageShot : Bool → Except String Nat
  upload : Nat → Except String String

/-- `ScreenshotService.capture`: navigate, capture (a truthy selector takes
precedence over the full-page flag, which defaults to false), upload.
Faults are logged and rethrown; the `finally` block closes the page whenever
it was opened. -/
def capture (env : ScreenshotEnv) (request : ScreenshotRequest) :
    Except String ScreenshotResult × SessionTrace :=
  match env.newPage with
  | .error msg => (.error msg, { page_opened := false, page_closed := false })
  | .ok _ =>
    match env.navigation with
    | .error msg => (.error msg, { page_opened := true, page_closed := true })
    | .ok _ =>
      let shot : Except String Nat :=
        if optTruthy request.selector then env.elementShot (request.selector.getD "")
        else env.pageShot (request.fullPage.getD false)
      match shot with
      | .error msg => (.error msg, { page_opened := true, page_closed := true })
      | .ok bytes =>
        match env.upload bytes with
        | .error msg => (.error msg, { page_opened := true, page_closed := true })
        | .ok url =>
          (.ok { screenshot_url := url
                 width := request.viewport.1
                 height := request.viewport.2
                 file_size := bytes },
           { page_opened := true, page_closed := true })

/-! ## Helper lemmas and concrete fixtures -/

theorem optBoolFalsy_some (b : Bool) : optBoolFalsy (some b) = !b := by
  cases b <;> rfl

/-- A page with no matching elements, frames or content. -/
def quietPage : CitationPage :=
  { textCount := fun _ => 0
    textContentOf := fun _ => none
    exactCount := fun _ => 0
    frames := []
    content := "" }

/-! ## Claim C2 — HTTP status ≥ 400 is terminal -/

/-- Claim C2: when the target responds with HTTP status ≥ 400 the validator
returns `not_found` with `text_found = none`, no paywall and no CAPTCHA
flag, independently of the page contents and of the upload outcome, and its
trace shows that no CAPTCHA, paywall, text or screenshot probe ran. -/
theorem citation_not_found_short_circuit
    (env : CitationEnv) (request : CitationValidationRequest)
    (s : Nat) (t : String)
    (hnew : env.newPage = .ok ())
    (hnav : env.navigation = .ok (s, t))
    (hs : 400 ≤ s) :
    validate env request =
      ({ url := request.url
         status := .not_found
         http_status := s
         text_found := none
         text_location := none
         paywall_detected := false
         paywall_text := none
         captcha_detected := false
         screenshot_url := none
         page_title := some t
         error_message := none },
       { page_opened := true, captcha_probed := false, paywall_probed := false,
         text_probed := false, screenshot_attempted := false, page_closed := true }) := by
  unfold validate
  rw [hnew, hnav]
  simp [hs]

/-- Environment of the C2 witness: a 404 response over a page whose contents
would trip every other probe, plus a working upload — none of which is
consulted. -/
def c2Env : CitationEnv :=
  { newPage := .ok ()
    navigation := .ok (404, "Not Found")
    page :=
      { textCount := fun _ => 1
        textContentOf := fun _ => some "subscribe now"
        exactCount := fun _ => 1
        frames := ["https://www.google.com/recaptcha/api2/anchor"]
        content := "subscribe captcha" }
    upload := .ok "https://res.cloudinary.example/citations/a.png" }

def c2Req : CitationValidationRequest :=
  { url := "https://example.com/404"
    expectedText := some "Example Domain"
    takeScreenshot := true
    checkPaywall := true }

theorem citation_not_found_short_circuit_witness :
    validate c2Env c2Req =
      ({ url := "https://example.com/404"
         status := .not_found
         http_status := 404
         text_found := none
         text_location := none
         paywall_detected := false
         paywall_text := none
         captcha_detected := false
         screenshot_url := none
         page_title := some "Not Found"
         error_message := none },
       { page_opened := true, captcha_probed := false, paywall_probed := false,
         text_probed := false, screenshot_attempted := false, page_closed := true }) :=
  citation_not_found_short_circuit c2Env c2Req 404 "Not Found" rfl rfl (by decide)

/-! ## Claim C3 — CAPTCHA detection is terminal and fully characterised -/

/-- Claim C3: when the CAPTCHA probe is positive (some indicator of the fixed
set has a case-insensitive text match, or some embedded frame URL contains
"recaptcha"/"captcha"), the result is `captcha` with `captcha_detected = true`
and the paywall probe, text probe and screenshot are all skipped, whatever
the request asked for; and positivity of the probe is exactly that
disjunction. -/
theorem citation_captcha_short_circuit
    (env : CitationEnv) (request : CitationValidationRequest)
    (s : Nat) (t : String)
    (hnew : env.newPage = .ok ())
    (hnav : env.navigation = .ok (s, t))
    (hs : s < 400)
    (hcap : detectCaptcha env.page = true) :
    validate env request =
      ({ url := request.url
         status := .captcha
         http_status := s
         text_found := none
         text_location := none
         paywall_detected := false
         paywall_text := none
         captcha_detected := true
         screenshot_url := none
         page_title := some t
         error_message := none },
       { page_opened := true, captcha_probed := true, paywall_probed := false,
         text_probed := false, screenshot_attempted := false, page_closed := true })
    ∧ ∀ p : CitationPage,
        detectCaptcha p = true ↔
          ((∃ ind ∈ captchaIndicators, 0 < p.textCount ind) ∨
           (∃ u ∈ p.frames,
             strContains u "recaptcha" = true ∨ strContains u "captcha" = true)) := by
  constructor
  · have h4 : ¬ 400 ≤ s := by omega
    unfold validate
    rw [hnew, hnav]
    simp [h4, hcap]
  · intro p
    simp [detectCaptcha, List.any_eq_true]

/-- Environment of the C3 witness: a CAPTCHA indicator matches on a page that
also shows a paywall phrase and would fail the text search; the probing all
stops at `captcha`. -/
def c3Env : CitationEnv :=
  { newPage := .ok ()
    navigation := .ok (200, "Are you a robot?")
    page :=
      { textCount := fun ind => if ind == "captcha" || ind == "subscribe" then 1 else 0
        textContentOf := fun _ => some "Subscribe to continue"
        exactCount := fun _ => 0
        frames := []
        content := "verify" }
    upload := .ok "https://res.cloudinary.example/citations/b.png" }

def c3Req : CitationValidationRequest :=
  { url := "https://example.com/blocked"
    expectedText := some "Example Domain"
    takeScreenshot := true
    checkPaywall := true }

theorem citation_captcha_short_circuit_witness :
    validate c3Env c3Req =
      ({ url := "https://example.com/blocked"
         status := .captcha
         http_status := 200
         text_found := none
         text_location := none
         paywall_detected := false
         paywall_text := none
         captcha_detected := true
         screenshot_url := none
         page_title := some "Are you a robot?"
         error_message := none },
       { page_opened := true, captcha_probed := true, paywall_probed := false,
         text_probed := false, screenshot_attempted := false, page_closed := true })
    ∧ ∀ p : CitationPage,
        detectCaptcha p = true ↔
          ((∃ ind ∈ captchaIndicators, 0 < p.textCount ind) ∨
           (∃ u ∈ p.frames,
             strContains u "recaptcha" = true ∨ strContains u "captcha" = true)) :=
  citation_captcha_short_circuit c3Env c3Req 200 "Are you a robot?" rfl rfl
    (by decide) (by decide)

/-! ## Claim C1 — final status resolution (amended: upload must not fault) -/

/-- Claim C1 (amended): for a request that navigates successfully with
status < 400, no CAPTCHA detected, and — when a screenshot was requested —
a successful evidence upload, the final status is `paywall` if the paywall
probe (when requested) detected a paywall, else `text_not_found` if
expectedText was supplied and not found by the three-tier search, else
`valid`; moreover the paywall probe runs exactly when requested and the
text probe runs exactly when expectedText was supplied, so paywall
detection does not short-circuit the text probe. -/
theorem citation_status_resolution
    (env : CitationEnv) (request : CitationValidationRequest)
    (s : Nat) (t : String)
    (hnew : env.newPage = .ok ())
    (hnav : env.navigation = .ok (s, t))
    (hs : s < 400)
    (hcap : detectCaptcha env.page = false)
    (hup : request.takeScreenshot = true → ∃ u, env.upload = .ok u) :
    (validate env request).1.status =
      (if request.checkPaywall && (detectPaywall env.page).1 then
        CitationStatus.paywall
      else if optTruthy request.expectedText
          && !(findExpectedText env.page (request.expectedText.getD "")).1 then
        CitationStatus.text_not_found
      else CitationStatus.valid)
    ∧ (validate env request).2.paywall_probed = request.checkPaywall
    ∧ (validate env request).2.text_probed = optTruthy request.expectedText := by
  have h4 : ¬ 400 ≤ s := by omega
  unfold validate
  rw [hnew, hnav]
  simp only [h4, if_false, hcap, Bool.false_eq_true]
  cases htake : request.takeScreenshot with
  | true =>
    obtain ⟨u, hu⟩ := hup htake
    rw [hu]
    cases hcp : request.checkPaywall <;>
      cases hdt : optTruthy request.expectedText <;>
        simp [Except.map, optBoolFalsy_some, hdt]
  | false =>
    cases hcp : request.checkPaywall <;>
      cases hdt : optTruthy request.expectedText <;>
        simp [Except.map, optBoolFalsy_some, hdt]

/-- Environment of the C1 counterexample: a clean 200 page with no paywall,
no CAPTCHA and no expected text, whose evidence upload fails. -/
def c1Env : CitationEnv :=
  { newPage := .ok ()
    navigation := .ok (200, "Example Domain")
    page := quietPage
    upload := .error "Failed to upload to Cloudinary: network unreachable" }

def c1Req : CitationValidationRequest :=
  { url := "https://example.com"
    expectedText := none
    takeScreenshot := true
    checkPaywall := true }

/-- Counterexample to claim C1 as stated: this request navigates successfully
with httpStatus 200 and no CAPTCHA, no paywall is detected and no
expectedText was supplied, so the claimed resolution demands status `valid`;
but the evidence upload faults and the code returns status `error`. -/
theorem citation_status_resolution_counterexample :
    c1Env.navigation = .ok (200, "Example Domain")
    ∧ detectCaptcha c1Env.page = false
    ∧ (detectPaywall c1Env.page).1 = false
    ∧ c1Req.expectedText = none
    ∧ (validate c1Env c1Req).1.status = CitationStatus.error
    ∧ CitationStatus.error ≠ CitationStatus.valid := by
  refine ⟨rfl, by decide, by decide, rfl, ?_, by decide⟩
  rfl

/-- Environment of the C1 witness: a paywalled page that also lacks the
expected text — `paywall` wins over `text_not_found`, and the text probe
still ran. -/
def c1wEnv : CitationEnv :=
  { newPage := .ok ()
    navigation := .ok (200, "Premium article")
    page :=
      { textCount := fun ind => if ind == "paywall" then 1 else 0
        textContentOf := fun _ => none
        exactCount := fun _ => 0
        frames := []
        content := "<html>premium</html>" }
    upload := .ok "https://res.cloudinary.example/citations/c.png" }

def c1wReq : CitationValidationRequest :=
  { url := "https://news.example.com/article"
    expectedText := some "quarterly results"
    takeScreenshot := false
    checkPaywall := true }

theorem citation_status_resolution_witness :
    (validate c1wEnv c1wReq).1.status = CitationStatus.paywall
    ∧ (validate c1wEnv c1wReq).2.paywall_probed = true
    ∧ (validate c1wEnv c1wReq).2.text_probed = true := by
  have h := citation_status_resolution c1wEnv c1wReq 200 "Premium article"
    rfl rfl (by decide) (by decide) (fun hc => Bool.noConfusion hc)
  refine ⟨h.1.trans ?_, h.2.1.trans ?_, h.2.2.trans ?_⟩ <;> decide

/-! ## Claim C7 — an Evidence Sink failure is never swallowed -/

/-- Claim C7: when a screenshot was requested and the Evidence Sink upload
fails, the whole request fails hard — the result's status is `error` and the
upload's error message surfaces in `error_message` — even though navigation
succeeded (status < 400) and the classification probes already ran (the
trace shows the screenshot stage was reached). -/
theorem upload_fault_is_hard_failure
    (env : CitationEnv) (request : CitationValidationRequest)
    (s : Nat) (t : String) (msg : String)
    (hnew : env.newPage = .ok ())
    (hnav : env.navigation = .ok (s, t))
    (hs : s < 400)
    (hcap : detectCaptcha env.page = false)
    (hshot : request.takeScreenshot = true)
    (hup : env.upload = .error msg) :
    (validate env request).1.status = CitationStatus.error
    ∧ (validate env request).1.error_message = some msg
    ∧ (validate env request).2.screenshot_attempted = true
    ∧ (validate env request).2.captcha_probed = true := by
  have h4 : ¬ 400 ≤ s := by omega
  unfold validate
  rw [hnew, hnav]
  simp [h4, hcap, hshot, hup, Except.map, errorResult]

/-- Environment of the C7 witness: a valid paywall-free page containing the
expected text, with a failing upload. -/
def c7Env : CitationEnv :=
  { newPage := .ok ()
    navigation := .ok (200, "Annual report")
    page :=
      { textCount := fun _ => 0
        textContentOf := fun _ => none
        exactCount := fun s => if s == "revenue grew" then 2 else 0
        frames := []
        content := "<html>revenue grew</html>" }
    upload := .error "Failed to upload to Cloudinary: 503 Service Unavailable" }

def c7Req : CitationValidationRequest :=
  { url := "https://corp.example.com/report"
    expectedText := some "revenue grew"
    takeScreenshot := true
    checkPaywall := true }

theorem upload_fault_is_hard_failure_witness :
    (validate c7Env c7Req).1.status = CitationStatus.error
    ∧ (validate c7Env c7Req).1.error_message
        = some "Failed to upload to Cloudinary: 503 Service Unavailable"
    ∧ (validate c7Env c7Req).2.screenshot_attempted = true
    ∧ (validate c7Env c7Req).2.captcha_probed = true :=
  upload_fault_is_hard_failure c7Env c7Req 200 "Annual report"
    "Failed to upload to Cloudinary: 503 Service Unavailable"
    rfl rfl (by decide) (by decide) rfl rfl

/-! ## Claim C10 — a post-navigation fault discards all findings -/

/-- Claim C10: when the screenshot upload faults on a page that navigated
successfully with a real HTTP status (< 400, no CAPTCHA), the returned
result is exactly the catch-all error record: status `error`,
`http_status = 0` (the real status is discarded), `text_found = none`,
no paywall/CAPTCHA flags, and no screenshot URL or page title — only the
error message is kept. -/
theorem post_navigation_fault_discards_findings
    (env : CitationEnv) (request : CitationValidationRequest)
    (s : Nat) (t : String) (msg : String)
    (hnew : env.newPage = .ok ())
    (hnav : env.navigation = .ok (s, t))
    (hs : s < 400)
    (hcap : detectCaptcha env.page = false)
    (hshot : request.takeScreenshot = true)
    (hup : env.upload = .error msg) :
    (validate env request).1 =
      { url := request.url
        status := .error
        http_status := 0
        text_found := none
        text_location := none
        paywall_detected := false
        paywall_text := none
        captcha_detected := false
        screenshot_url := none
        page_title := none
        error_message := some msg } := by
  have h4 : ¬ 400 ≤ s := by omega
  unfold validate
  rw [hnew, hnav]
  simp [h4, hcap, hshot, hup, Except.map, errorResult]

/-- Environment of the C10 witness: navigation returned 200 with a page
title, a paywall indicator was present and the expected text was found —
all of it discarded by the upload fault. -/
def c10Env : CitationEnv :=
  { newPage := .ok ()
    navigation := .ok (200, "Members only")
    page :=
      { textCount := fun ind => if ind == "subscription" then 3 else 0
        textContentOf := fun _ => some "Subscription required"
        exactCount := fun _ => 1
        frames := []
        content := "<html>subscription</html>" }
    upload := .error "Failed to upload to Cloudinary: invalid api key" }

def c10Req : CitationValidationRequest :=
  { url := "https://magazine.example.com/piece"
    expectedText := some "exclusive interview"
    takeScreenshot := true
    checkPaywall := true }

theorem post_navigation_fault_discards_findings_witness :
    (validate c10Env c10Req).1 =
      { url := "https://magazine.example.com/piece"
        status := .error
        http_status := 0
        text_found := none
        text_location := none
        paywall_detected := false
        paywall_text := none
        captcha_detected := false
        screenshot_url := none
        page_title := none
        error_message := some "Failed to upload to Cloudinary: invalid api key" } :=
  post_navigation_fault_discards_findings c10Env c10Req 200 "Members only"
    "Failed to upload to Cloudinary: invalid api key"
    rfl rfl (by decide) (by decide) rfl rfl

/-! ## Claim C8 — batch validation is the pointwise map of validate -/

theorem batchValidateGo_get (envs : Nat → CitationEnv)
    (cs : List CitationValidationRequest) (k i : Nat) :
    (batchValidateGo envs k cs)[i]? = (cs[i]?).map (fun c => (validate (envs (k + i)) c).1) := by
  induction cs generalizing k i with
  | nil => simp [batchValidateGo]
  | cons c cs ih =>
    cases i with
    | zero => simp [batchValidateGo]
    | succ j =>
      simp only [batchValidateGo, List.getElem?_cons_succ]
      rw [ih (k + 1) j]
      have : k + 1 + j = k + (j + 1) := by omega
      rw [this]

theorem batchValidateGo_length (envs : Nat → CitationEnv)
    (cs : List CitationValidationRequest) (k : Nat) :
    (batchValidateGo envs k cs).length = cs.length := by
  induction cs generalizing k with
  | nil => rfl
  | cons c cs ih => simp [batchValidateGo, ih]

/-- Claim C8: the batch result has the same length as the input list, and
the entry at each position is exactly the validation result of the citation
at that position against that member's own environment — member validations
are independent and no member's outcome (including `error`) disturbs the
others. -/
theorem batch_validate_pointwise (envs : Nat → CitationEnv)
    (citations : List CitationValidationRequest) :
    (batchValidate envs citations).length = citations.length
    ∧ ∀ i : Nat,
        (batchValidate envs citations)[i]?
          = (citations[i]?).map (fun c => (validate (envs i) c).1) := by
  constructor
  · exact batchValidateGo_length envs citations 0
  · intro i
    have h := batchValidateGo_get envs citations 0 i
    simpa using h

/-! ## Claim C9 — the page session is released on every exit path -/

theorem validate_releases (env : CitationEnv) (request : CitationValidationRequest) :
    (validate env request).2.page_closed = (validate env request).2.page_opened := by
  unfold validate
  rcases env.newPage with m | u
  · rfl
  · rcases env.navigation with m | ⟨s, t⟩
    · rfl
    · by_cases h4 : 400 ≤ s
      · simp [h4]
      · simp only [h4, if_false]
        by_cases hc : detectCaptcha env.page
        · simp [hc]
        · simp only [hc, Bool.false_eq_true, if_false]
          rcases hm : (if request.takeScreenshot then env.upload.map some else .ok none) with m | u'
          · simp [hm]
          · simp [hm]

theorem verify_releases (env : VerifyEnv) (request : DeploymentVerificationRequest) :
    (verify env request).2.page_closed = (verify env request).2.page_opened := by
  unfold verify
  rcases env.newPage with m | u
  · rfl
  · rcases env.navigation with m | u'
    · rfl
    · rfl

theorem visualRegression_releases (env : VisualEnv) (request : VisualRegressionRequest) :
    (visualRegression env request).2.page_closed
      = (visualRegression env request).2.page_opened := by
  unfold visualRegression
  rcases env.newPage with m | u
  · rfl
  · rcases env.navigation with m | u'
    · rfl
    · rcases env.upload with m | u''
      · rfl
      · by_cases hb : optTruthy request.baselineScreenshot
        · simp [hb]
        · simp [hb]

theorem capture_releases (env : ScreenshotEnv) (request : ScreenshotRequest) :
    (capture env request).2.page_closed = (capture env request).2.page_opened := by
  unfold capture
  rcases env.newPage with m | u
  · rfl
  · rcases env.navigation with m | u'
    · rfl
    · rcases hm : (if optTruthy request.selector then
          env.elementShot (request.selector.getD "")
        else env.pageShot (request.fullPage.getD false)) with m | bytes
      · simp [hm]
      · simp only [hm]
        rcases env.upload bytes with m | url
        · rfl
        · rfl

/-- Claim C9: in all four entry points — citation validation, deployment
verification, visual regression and screenshot capture — the page is closed
exactly when it was opened, on every exit path (success, classified failure
and fault): a page handle never outlives its originating request. -/
theorem page_session_always_released
    (cenv : CitationEnv) (creq : CitationValidationRequest)
    (venv : VerifyEnv) (vreq : DeploymentVerificationRequest)
    (renv : VisualEnv) (rreq : VisualRegressionRequest)
    (senv : ScreenshotEnv) (sreq : ScreenshotRequest) :
    (validate cenv creq).2.page_closed = (validate cenv creq).2.page_opened
    ∧ (verify venv vreq).2.page_closed = (verify venv vreq).2.page_opened
    ∧ (visualRegression renv rreq).2.page_closed
        = (visualRegression renv rreq).2.page_opened
    ∧ (capture senv sreq).2.page_closed = (capture senv sreq).2.page_opened :=
  ⟨validate_releases cenv creq, verify_releases venv vreq,
   visualRegression_releases renv rreq, capture_releases senv sreq⟩

/-! ## Claim C4 — verify runs every check and aggregates with AND -/

/-- Claim C4: after a successful navigation, `verify` succeeds and its check
list is exactly the map of `runCheck` over the caller-supplied sequence (in
the given order, one result per check, with no short-circuit on failure),
and the aggregate status is `passed` iff every child result passed. -/
theorem verify_runs_all_checks_and_aggregates
    (env : VerifyEnv) (request : DeploymentVerificationRequest)
    (hnew : env.newPage = .ok ())
    (hnav : env.navigation = .ok ()) :
    ∃ r, (verify env request).1 = .ok r
      ∧ r.checks = request.checks.map (runCheck env.page)
      ∧ r.checks.length = request.checks.length
      ∧ (r.status = .passed ↔ ∀ c ∈ r.checks, c.passed = true) := by
  simp only [verify, hnew, hnav]
  refine ⟨_, rfl, rfl, by simp, ?_⟩
  by_cases hb : (request.checks.map (runCheck env.page)).all (fun r => r.passed) = true
  · rw [if_pos hb]
    simp only [List.all_eq_true] at hb
    exact iff_of_true rfl hb
  · rw [if_neg hb]
    simp only [List.all_eq_true] at hb
    exact iff_of_false (by simp) hb

/-- Fixed computed-style snapshot used by the verifier fixtures. -/
def plainStyles : ComputedStyles :=
  { display := "block", visibility := "visible", opacity := "1",
    color := "rgb(0, 0, 0)", fontSize := "16px", fontFamily := "Arial",
    backgroundColor := "rgba(0, 0, 0, 0)" }

/-- Page of the C4 witness: only three images are loaded, so an
`images_loaded` check demanding five fails while the other checks pass. -/
def c4Page : DeployPage :=
  { screenshotUpload := .ok "https://res.cloudinary.example/deployments/d.png"
    selectorCount := fun _ => 1
    selectorStyles := fun _ => plainStyles
    images :=
      [{ src := some "/a.png", complete := true, naturalWidth := 100 },
       { src := some "/b.png", complete := true, naturalWidth := 80 },
       { src := some "/c.png", complete := true, naturalWidth := 60 },
       { src := some "/d.png", complete := false, naturalWidth := 0 },
       { src := none, complete := true, naturalWidth := 0 }]
    fontCheck := fun _ => true
    cls := 2 / 100
    dom_content_loaded := 120
    first_contentful_paint := 300 }

def c4Env : VerifyEnv :=
  { newPage := .ok ()
    navigation := .ok ()
    page := c4Page
    loadTime := 850 }

def c4Req : DeploymentVerificationRequest :=
  { url := "https://site.example.com"
    checks :=
      [{ type := "images_loaded", selector := none, viewport := none,
         min_count := some 5, font_family := none, wait_time := none },
       { type := "layout_stable", selector := none, viewport := none,
         min_count := none, font_family := none, wait_time := none }] }

theorem verify_runs_all_checks_and_aggregates_witness :
    ∃ r, (verify c4Env c4Req).1 = .ok r
      ∧ r.checks = c4Req.checks.map (runCheck c4Env.page)
      ∧ r.checks.length = c4Req.checks.length
      ∧ (r.status = .passed ↔ ∀ c ∈ r.checks, c.passed = true) :=
  verify_runs_all_checks_and_aggregates c4Env c4Req rfl rfl

/-! ## Claim C6 — per-check failures are isolated -/

/-- Claim C6: a check with an unrecognised type yields a failed result with
an explanatory message; an exception thrown inside a single check's
execution is caught by `runCheck` and becomes that check's failed result
carrying the error message; and `verify`'s result list is the pointwise map
of `runCheck`, so either kind of failure affects only its own entry and
never aborts the batch. -/
theorem check_failure_isolation :
    (∀ (page : DeployPage) (check : DeploymentCheck),
        check.type ∉ knownCheckTypes →
        runCheck page check =
          { emptyCheckResult check.type false with
            message := some ("Unknown check type: " ++ check.type) })
    ∧ (∀ (page : DeployPage) (check : DeploymentCheck) (msg : String),
        runCheckBody page check = .error msg →
        runCheck page check =
          { emptyCheckResult check.type false with message := some msg })
    ∧ (∀ (env : VerifyEnv) (request : DeploymentVerificationRequest),
        env.newPage = .ok () → env.navigation = .ok () →
        ∃ r, (verify env request).1 = .ok r
          ∧ r.checks = request.checks.map (runCheck env.page)) := by
  refine ⟨?_, ?_, ?_⟩
  · intro page check h
    simp only [knownCheckTypes, List.mem_cons, List.not_mem_nil, or_false, not_or] at h
    obtain ⟨h1, h2, h3, h4, h5, h6⟩ := h
    unfold runCheck runCheckBody
    rw [if_neg h1, if_neg h2, if_neg h3, if_neg h4, if_neg h5, if_neg h6]
  · intro page check msg h
    unfold runCheck
    rw [h]
  · intro env request hnew hnav
    simp only [verify, hnew, hnav]
    exact ⟨_, rfl, rfl⟩

/-- Page of the C6 witness: the screenshot check's upload throws. -/
def c6Page : DeployPage :=
  { screenshotUpload := .error "Failed to upload to Cloudinary: timeout"
    selectorCount := fun _ => 1
    selectorStyles := fun _ => plainStyles
    images := [{ src := some "/hero.jpg", complete := true, naturalWidth := 640 }]
    fontCheck := fun _ => true
    cls := 1 / 100
    dom_content_loaded := 90
    first_contentful_paint := 210 }

def c6Env : VerifyEnv :=
  { newPage := .ok ()
    navigation := .ok ()
    page := c6Page
    loadTime := 400 }

/-- A check with an unrecognised type. -/
def c6Bad : DeploymentCheck :=
  { type := "a11y", selector := none, viewport := none, min_count := none,
    font_family := none, wait_time := none }

/-- A screenshot check, whose upload faults on `c6Page`. -/
def c6Shot : DeploymentCheck :=
  { type := "screenshot", selector := none, viewport := none, min_count := none,
    font_family := none, wait_time := none }

def c6Req : DeploymentVerificationRequest :=
  { url := "https://site.example.com"
    checks :=
      [c6Bad, c6Shot,
       { type := "images_loaded", selector := none, viewport := none,
         min_count := none, font_family := none, wait_time := none }] }

theorem check_failure_isolation_witness :
    runCheck c6Page c6Bad =
      { emptyCheckResult "a11y" false with
        message := some "Unknown check type: a11y" }
    ∧ runCheck c6Page c6Shot =
      { emptyCheckResult "screenshot" false with
        message := some "Failed to upload to Cloudinary: timeout" }
    ∧ ∃ r, (verify c6Env c6Req).1 = .ok r
        ∧ r.checks = c6Req.checks.map (runCheck c6Env.page) :=
  ⟨check_failure_isolation.1 c6Page c6Bad (by decide),
   check_failure_isolation.2.1 c6Page c6Shot
     "Failed to upload to Cloudinary: timeout" rfl,
   check_failure_isolation.2.2 c6Env c6Req rfl rfl⟩

/-! ## Claim C5 — visual regression thresholding -/

/-- Claim C5: when `visualRegression` returns a result, then with no
(truthy) baseline supplied it passes with zero pixel difference regardless
of the threshold and performs no comparison, and with a baseline supplied
it passes iff the computed pixel difference is at most the request's
threshold (so a difference above the threshold forces failure). -/
theorem visual_regression_threshold
    (env : VisualEnv) (request : VisualRegressionRequest) (u : String)
    (hnew : env.newPage = .ok ())
    (hnav : env.navigation = .ok ())
    (hup : env.upload = .ok u) :
    ∃ r, (visualRegression env request).1 = .ok r
      ∧ r.threshold = request.threshold
      ∧ (optTruthy request.baselineScreenshot = false →
          r.passed = true ∧ r.pixel_difference = 0 ∧ r.diff_image_url = none
            ∧ r.differences_found = none)
      ∧ (optTruthy request.baselineScreenshot = true →
          ((r.passed = true ↔ r.pixel_difference ≤ request.threshold)
           ∧ (request.threshold < r.pixel_difference → r.passed = false))) := by
  simp only [visualRegression, hnew, hnav, hup]
  by_cases hb : optTruthy request.baselineScreenshot
  · simp only [hb, Bool.not_true, Bool.false_eq_true, if_false]
    refine ⟨_, rfl, rfl, ?_, ?_⟩
    · intro h; exact Bool.noConfusion h
    · intro _
      constructor
      · simp [compareImages]
      · intro hlt
        simp only [compareImages]
        exact decide_eq_false (not_le.mpr hlt)
  · rw [Bool.not_eq_true] at hb
    simp only [hb, Bool.not_false, if_true]
    refine ⟨_, rfl, rfl, ?_, ?_⟩
    · intro _; exact ⟨rfl, rfl, rfl, rfl⟩
    · intro h; exact Bool.noConfusion h

/-- Environment of the C5 witness. -/
def c5Env : VisualEnv :=
  { newPage := .ok ()
    navigation := .ok ()
    screenshotBytes := 204800
    upload := .ok "https://res.cloudinary.example/visual-regression/cur.png" }

/-- A visual-regression request with a baseline and a tight threshold. -/
def c5Req : VisualRegressionRequest :=
  { url := "https://site.example.com"
    baselineScreenshot := some "https://res.cloudinary.example/visual-regression/base.png"
    threshold := 1 / 100
    viewport := (1280, 720) }

theorem visual_regression_threshold_witness :
    ∃ r, (visualRegression c5Env c5Req).1 = .ok r
      ∧ r.threshold = c5Req.threshold
      ∧ (optTruthy c5Req.baselineScreenshot = false →
          r.passed = true ∧ r.pixel_difference = 0 ∧ r.diff_image_url = none
            ∧ r.differences_found = none)
      ∧ (optTruthy c5Req.baselineScreenshot = true →
          ((r.passed = true ↔ r.pixel_difference ≤ c5Req.threshold)
           ∧ (c5Req.threshold < r.pixel_difference → r.passed = false))) :=
  visual_regression_threshold c5Env c5Req
    "https://res.cloudinary.example/visual-regression/cur.png" rfl rfl rfl
